import Mathlib

/-!
# Cyan: shallow embedding of the parser and interpreter

This file embeds the core of the Cyan scripting language — the recursive-descent
parser (`ast_parser.py`) and the tree-walking interpreter (`interpreter.py`,
with the token model of `tokens.py`) — as executable Lean definitions, and
proves the specification's claims about them.

Modelling conventions:
* Python numbers are modelled as exact rationals `ℚ` (the spec's float64
  rounding is outside this model; every claim below is about exact values).
* The mutable `ParseResult` / parser-cursor state is passed explicitly: each
  production maps a token index to a result record and a new index.
* Python's unbounded recursion is modelled with a fuel parameter; running out
  of fuel yields a distinguished outcome that no theorem below ever hits.
* Host-level Python exceptions (`AttributeError`, `TypeError` from unpacking a
  non-pair, unbound locals) are modelled as an explicit `crash` outcome,
  distinct from the language's own structured errors.
-/

namespace Cyan

/-- Token type tags, from `tokens.py` (`class t`). -/
inductive TType where
  | INT | FLOAT
  | PLUS | MINUS | MUL | DIV | POW
  | EE | NE | LT | GT | LTE | GTE
  | EQ
  | L_PAREN | R_PAREN
  | LITERAL | IDENTIFIER | KW
  | COLON | COMMA | NEWLINE | EOF
deriving DecidableEq, Repr

/-- A Python token payload: `None`, a number, or a string
(keywords, identifiers, boolean literals). -/
inductive TVal where
  | vNone
  | vNum (q : ℚ)
  | vStr (s : String)
deriving DecidableEq, Repr

/-- `tokens.py` `Token`: a type tag, an optional value and a source span.
The external tokenizer supplies the positions; we model a position as a
character index. -/
structure Token where
  type_ : TType
  value : TVal := .vNone
  posStart : Option Nat := none
  posEnd : Option Nat := none
deriving DecidableEq, Repr

/-- `Token.is_type(*token_name_s)`: membership of the type tag. -/
def Token.is_type (tk : Token) (tys : List TType) : Bool :=
  tys.contains tk.type_

/-- `Token.is_equals(token_name, value)`. -/
def Token.is_equals (tk : Token) (ty : TType) (v : TVal) : Bool :=
  tk.type_ = ty && tk.value = v

/-- AST nodes of `ast_parser.py`. Every constructor carries the two span
fields `pos_start`/`pos_end` of the Python `Node` base class (default `None`);
the smart constructors below mirror each variant's `__init__`. -/
inductive Node where
  | number (tok : Token) (ps pe : Option Nat)
  | literal (tok : Token) (ps pe : Option Nat)
  | binOp (left : Node) (oper : Token) (right : Node) (ps pe : Option Nat)
  | unaryOp (oper : Token) (node : Node) (ps pe : Option Nat)
  | varAccess (var_name : Token) (ps pe : Option Nat)
  | varAssign (var_name : Token) (value : Node) (ps pe : Option Nat)
  | ifBlock (cond thenExpr elseExpr : Node) (ps pe : Option Nat)
  | funcDef (name : String) (parameters : List Token) (body : Node) (ps pe : Option Nat)
  | funcCall (node_to_call : Node) (arguments : List Node) (ps pe : Option Nat)
deriving Repr

/-- `Node.pos_start`. -/
def Node.posStart : Node → Option Nat
  | .number _ ps _ => ps
  | .literal _ ps _ => ps
  | .binOp _ _ _ ps _ => ps
  | .unaryOp _ _ ps _ => ps
  | .varAccess _ ps _ => ps
  | .varAssign _ _ ps _ => ps
  | .ifBlock _ _ _ ps _ => ps
  | .funcDef _ _ _ ps _ => ps
  | .funcCall _ _ ps _ => ps

/-- `Node.pos_end`. -/
def Node.posEnd : Node → Option Nat
  | .number _ _ pe => pe
  | .literal _ _ pe => pe
  | .binOp _ _ _ _ pe => pe
  | .unaryOp _ _ _ pe => pe
  | .varAccess _ _ pe => pe
  | .varAssign _ _ _ pe => pe
  | .ifBlock _ _ _ _ pe => pe
  | .funcDef _ _ _ _ pe => pe
  | .funcCall _ _ _ pe => pe

/-- `Node.set_pos(pos_start, pos_end)`: overwrite both span fields. -/
def Node.set_pos : Node → Option Nat → Option Nat → Node
  | .number tok _ _, a, b => .number tok a b
  | .literal tok _ _, a, b => .literal tok a b
  | .binOp l o r _ _, a, b => .binOp l o r a b
  | .unaryOp o n _ _, a, b => .unaryOp o n a b
  | .varAccess v _ _, a, b => .varAccess v a b
  | .varAssign v n _ _, a, b => .varAssign v n a b
  | .ifBlock c t e _ _, a, b => .ifBlock c t e a b
  | .funcDef nm ps bd _ _, a, b => .funcDef nm ps bd a b
  | .funcCall c as _ _, a, b => .funcCall c as a b

/-- `NumberNode.__init__`: span copied from the token. -/
def mkNumberNode (tok : Token) : Node := .number tok tok.posStart tok.posEnd

/-- `LiteralNode.__init__`: span copied from the token. -/
def mkLiteralNode (tok : Token) : Node := .literal tok tok.posStart tok.posEnd

/-- `BinOpNode.__init__`: span from the left child's start to the right
child's end. -/
def mkBinOpNode (l : Node) (op : Token) (r : Node) : Node :=
  .binOp l op r l.posStart r.posEnd

/-- `UnaryOpNode.__init__`: span from the operator token to the operand. -/
def mkUnaryOpNode (op : Token) (n : Node) : Node :=
  .unaryOp op n op.posStart n.posEnd

/-- `VarAccessNode.__init__`: span copied from the name token. -/
def mkVarAccessNode (name : Token) : Node :=
  .varAccess name name.posStart name.posEnd

/-- `VarAssignNode.__init__`: span from the name token to the value. -/
def mkVarAssignNode (name : Token) (v : Node) : Node :=
  .varAssign name v name.posStart v.posEnd

/-- `IfBlockNode.__init__`: sets `pos_start = case[0].pos_start` only —
`pos_end` is never assigned and keeps the `Node` class default `None`. -/
def mkIfBlockNode (cond thenExpr elseExpr : Node) : Node :=
  .ifBlock cond thenExpr elseExpr cond.posStart none

/-- `FuncDefNode.__init__`: `self.name = name or '[lambda]'` (the parser passes
the empty string for an anonymous function); the span is left to the caller's
`set_pos`. -/
def mkFuncDefNode (name : String) (params : List Token) (body : Node) : Node :=
  .funcDef (if name = "" then "[lambda]" else name) params body none none

/-- `FuncCallNode.__init__`: stores callee and arguments; the span is left to
the caller's `set_pos`. -/
def mkFuncCallNode (callee : Node) (args : List Node) : Node :=
  .funcCall callee args none none

/-- Modelled from the spec: `utils.InvalidSyntaxError` (the `utils` module is
not part of the repository's core sources). Per the spec's error-object
contract it carries a start/end position, a message, and an error-kind tag
(`set_ecode`). -/
structure PErr where
  ps : Option Nat
  pe : Option Nat
  msg : String
  ecode : Option String := none
deriving DecidableEq, Repr

/-- `ParseResult`: at most one error, an optional node, and a
token-advancement counter. -/
structure PRes where
  error : Option PErr := none
  node : Option Node := none
  adv : Nat := 0
deriving Repr

/-- `ParseResult.register_adv`. -/
def PRes.register_adv (r : PRes) : PRes := { r with adv := r.adv + 1 }

/-- `ParseResult.register(res)`: add the sub-result's advancements, take its
error if it has one (unconditionally overwriting), and hand back its node. -/
def PRes.register (r sub : PRes) : PRes × Option Node :=
  ({ r with
      adv := r.adv + sub.adv
      error := match sub.error with
        | some e => some e
        | none => r.error },
   sub.node)

/-- `ParseResult.success(node)` (note: does not clear an existing error). -/
def PRes.success (r : PRes) (n : Node) : PRes := { r with node := some n }

/-- `ParseResult.failure(error)`: the source guards the assignment with
`if error is not None or self.advancements == 0` — so a non-`None` error
always overwrites the stored one, whatever the advancement count. -/
def PRes.failure (r : PRes) (e : Option PErr) : PRes :=
  if e.isSome || r.adv == 0 then { r with error := e } else r

instance : Inhabited Token := ⟨{ type_ := .EOF }⟩

/-- `Parser.cur_tok` as a function of the cursor index: `advance` updates
`cur_tok` only while the index is in range, so past the end the cursor sticks
at the final (EOF) token. -/
def curTok (ts : List Token) (i : Nat) : Token :=
  if i < ts.length then ts.getD i default else ts.getD (ts.length - 1) default

/-- One entry of `bin_oper`'s `operators` tuple: either a bare token type or a
`(type, value)` pair. -/
inductive OpSpec where
  | oTy (ty : TType)
  | oTyVal (ty : TType) (v : TVal)
deriving DecidableEq, Repr

/-- The `while` guard of `bin_oper`:
`cur_tok.is_type(*operators) or (cur_tok.type_, cur_tok.value) in operators`. -/
def opMatches (tk : Token) (ops : List OpSpec) : Bool :=
  ops.any fun o => match o with
    | .oTy ty => tk.type_ = ty
    | .oTyVal ty v => tk.type_ = ty && tk.value = v

/-- Tags naming the grammar productions that `bin_oper` receives as its
`func_left` / `func_right` arguments (defunctionalized for termination). -/
inductive SubP where
  | sExpr | sComp | sArith | sTerm | sFactor | sCall
deriving DecidableEq, Repr

/-- Outcome of one of the parser's `while` loops: either the loop finished
(possibly via `break`) or the enclosing method `return`ed early. -/
inductive LoopOut (α : Type) where
  | cont (res : PRes) (acc : α) (i : Nat)
  | abort (res : PRes) (i : Nat)

/-- Result of running out of model fuel; no theorem below ever reaches it. -/
def fuelRes : PRes := { error := some ⟨none, none, "model: out of fuel", some "fuel"⟩ }

mutual

/-- `Parser.expr`. -/
def pExpr (ts : List Token) (fuel : Nat) (a1 : Nat) : PRes × Nat :=
  match fuel, a1 with
  | 0, i => (fuelRes, i)
  | f + 1, i =>
    let res : PRes := {}
    if (curTok ts i).is_equals .KW (.vStr "let") then
      let res := res.register_adv
      let i := i + 1
      if ¬ (curTok ts i).is_type [.IDENTIFIER] then
        (res.failure (some ⟨(curTok ts i).posStart, (curTok ts i).posEnd, "Expected identifier", none⟩), i)
      else
        let var_name := curTok ts i
        let res := res.register_adv
        let i := i + 1
        if ¬ (curTok ts i).is_type [.EQ] then
          (res.failure (some ⟨(curTok ts i).posStart, (curTok ts i).posEnd, "Expected '='", none⟩), i)
        else
          let res := res.register_adv
          let i := i + 1
          let (sub, i) := pExpr ts f i
          let (res, exprOpt) := res.register sub
          if res.error.isSome then (res, i)
          else match exprOpt with
            | some e => (res.success (mkVarAssignNode var_name e), i)
            | none => (res, i)
    else
      let (sub, i) := bin_oper ts f .sComp [.oTyVal .KW (.vStr "and"), .oTyVal .KW (.vStr "or")] .sComp i
      let (res, nodeOpt) := res.register sub
      if res.error.isSome then (res, i)
      else match nodeOpt with
        | some n => (res.success n, i)
        | none => (res, i)
termination_by structural fuel

/-- `Parser.comp_expr`. -/
def pCompExpr (ts : List Token) (fuel : Nat) (a1 : Nat) : PRes × Nat :=
  match fuel, a1 with
  | 0, i => (fuelRes, i)
  | f + 1, i =>
    let res : PRes := {}
    if (curTok ts i).is_equals .KW (.vStr "not") then
      let op_tok := curTok ts i
      let res := res.register_adv
      let i := i + 1
      let (sub, i) := pCompExpr ts f i
      let (res, nodeOpt) := res.register sub
      if res.error.isSome then (res, i)
      else match nodeOpt with
        | some n => (res.success (mkUnaryOpNode op_tok n), i)
        | none => (res, i)
    else
      let (sub, i) := bin_oper ts f .sArith
        [.oTy .EE, .oTy .NE, .oTy .LT, .oTy .GT, .oTy .LTE, .oTy .GTE] .sArith i
      let (res, nodeOpt) := res.register sub
      if res.error.isSome then (res, i)
      else match nodeOpt with
        | some n => (res.success n, i)
        | none => (res, i)
termination_by structural fuel

/-- `Parser.arith_expr`: `bin_oper(term, (PLUS, MINUS))`. -/
def pArithExpr (ts : List Token) (fuel : Nat) (a1 : Nat) : PRes × Nat :=
  match fuel, a1 with
  | 0, i => (fuelRes, i)
  | f + 1, i => bin_oper ts f .sTerm [.oTy .PLUS, .oTy .MINUS] .sTerm i
termination_by structural fuel

/-- `Parser.term`: `bin_oper(factor, (MUL, DIV))`. -/
def pTerm (ts : List Token) (fuel : Nat) (a1 : Nat) : PRes × Nat :=
  match fuel, a1 with
  | 0, i => (fuelRes, i)
  | f + 1, i => bin_oper ts f .sFactor [.oTy .MUL, .oTy .DIV] .sFactor i
termination_by structural fuel

/-- `Parser.power`: `bin_oper(call, (POW,), factor)` — the right operand
re-enters at `factor` precedence. -/
def pPower (ts : List Token) (fuel : Nat) (a1 : Nat) : PRes × Nat :=
  match fuel, a1 with
  | 0, i => (fuelRes, i)
  | f + 1, i => bin_oper ts f .sCall [.oTy .POW] .sFactor i
termination_by structural fuel

/-- `Parser.factor`: unary `+`/`-` prefix, else `power`. -/
def pFactor (ts : List Token) (fuel : Nat) (a1 : Nat) : PRes × Nat :=
  match fuel, a1 with
  | 0, i => (fuelRes, i)
  | f + 1, i =>
    let res : PRes := {}
    let tok := curTok ts i
    if tok.is_type [.PLUS, .MINUS] then
      let res := res.register_adv
      let i := i + 1
      let (sub, i) := pFactor ts f i
      let (res, factorOpt) := res.register sub
      if res.error.isSome then (res, i)
      else match factorOpt with
        | some fc => (res.success (mkUnaryOpNode tok fc), i)
        | none => (res, i)
    else pPower ts f i
termination_by structural fuel

/-- `Parser.call`: an `atom`, optionally followed by a parenthesized
comma-separated argument list. -/
def pCall (ts : List Token) (fuel : Nat) (a1 : Nat) : PRes × Nat :=
  match fuel, a1 with
  | 0, i => (fuelRes, i)
  | f + 1, i =>
    let res : PRes := {}
    let (sub, i) := pAtom ts f i
    let (res, atomOpt) := res.register sub
    if res.error.isSome then (res, i)
    else match atomOpt with
      | none => (res, i)
      | some atom =>
        if (curTok ts i).is_type [.L_PAREN] then
          let res := res.register_adv
          let i := i + 1
          if ¬ (curTok ts i).is_type [.R_PAREN] then
            let (sub, i) := pExpr ts f i
            let (res, argOpt) := res.register sub
            if res.error.isSome then (res, i)
            else match argOpt with
              | none => (res, i)
              | some arg =>
                match pCallArgsLoop ts f res [arg] i with
                | .abort res i => (res, i)
                | .cont res args i =>
                  if ¬ (curTok ts i).is_type [.R_PAREN] then
                    (res.failure (some ⟨(curTok ts i).posStart, (curTok ts i).posEnd, "Expected ')'", none⟩), i)
                  else
                    let pos_end := (curTok ts i).posEnd
                    let res := res.register_adv
                    let i := i + 1
                    (res.success ((mkFuncCallNode atom args).set_pos atom.posStart pos_end), i)
          else
            let pos_end := (curTok ts i).posEnd
            let res := res.register_adv
            let i := i + 1
            (res.success ((mkFuncCallNode atom []).set_pos atom.posStart pos_end), i)
        else (res.success atom, i)
termination_by structural fuel

/-- The `while self.cur_tok.is_type(t.COMMA)` loop of `Parser.call`. -/
def pCallArgsLoop (ts : List Token) (fuel : Nat) (a1 : PRes) (a2 : List Node) (a3 : Nat) : LoopOut (List Node) :=
  match fuel, a1, a2, a3 with
  | 0, res, _, i => .abort (res.failure fuelRes.error) i
  | f + 1, res, args, i =>
    if (curTok ts i).is_type [.COMMA] then
      let res := res.register_adv
      let i := i + 1
      let (sub, i) := pExpr ts f i
      let (res, argOpt) := res.register sub
      if res.error.isSome then .abort res i
      else match argOpt with
        | none => .abort res i
        | some arg =>
          let args := args ++ [arg]
          if (curTok ts i).is_type [.R_PAREN] then .cont res args i
          else if ¬ (curTok ts i).is_type [.COMMA] then
            .abort (res.failure (some ⟨(curTok ts i).posStart, (curTok ts i).posEnd, "Expected ',' or ')'", none⟩)) i
          else pCallArgsLoop ts f res args i
    else .cont res args i
termination_by structural fuel

/-- `Parser.atom`. -/
def pAtom (ts : List Token) (fuel : Nat) (a1 : Nat) : PRes × Nat :=
  match fuel, a1 with
  | 0, i => (fuelRes, i)
  | f + 1, i =>
    let res : PRes := {}
    let tok := curTok ts i
    if tok.is_type [.INT, .FLOAT] then
      (( res.register_adv).success (mkNumberNode tok), i + 1)
    else if tok.is_type [.LITERAL] then
      ((res.register_adv).success (mkLiteralNode tok), i + 1)
    else if tok.is_type [.L_PAREN] then
      let res := res.register_adv
      let i := i + 1
      let (sub, i) := pExpr ts f i
      let (res, exprOpt) := res.register sub
      if res.error.isSome then (res, i)
      else if (curTok ts i).is_type [.R_PAREN] then
        match exprOpt with
        | some e => ((res.register_adv).success e, i + 1)
        | none => (res.register_adv, i + 1)
      else
        (res.failure (some ⟨(curTok ts i).posStart, (curTok ts i).posEnd, "Expected ')'", none⟩), i)
    else if tok.is_type [.IDENTIFIER] then
      ((res.register_adv).success (mkVarAccessNode tok), i + 1)
    else if tok.is_equals .KW (.vStr "if") then
      let (sub, i) := pIfExpr ts f i
      let (res, nodeOpt) := res.register sub
      ({ res with node := nodeOpt }, i)
    else if tok.is_equals .KW (.vStr "fun") then
      let (sub, i) := pFuncDef ts f i
      let (res, nodeOpt) := res.register sub
      ({ res with node := nodeOpt }, i)
    else
      (res.failure (some ⟨tok.posStart, tok.posEnd,
        "Expected Value: identifier, int, float, '+', '-' or '('", none⟩), i)
termination_by structural fuel

/-- `Parser.if_expr` (entered with `cur_tok` = `KW:if`). -/
def pIfExpr (ts : List Token) (fuel : Nat) (a1 : Nat) : PRes × Nat :=
  match fuel, a1 with
  | 0, i => (fuelRes, i)
  | f + 1, i =>
    let res : PRes := {}
    let res := res.register_adv
    let i := i + 1
    let (sub, i) := pCompExpr ts f i
    let (res, condOpt) := res.register sub
    if res.error.isSome then (res, i)
    else if ¬ (curTok ts i).is_equals .KW (.vStr "then") then
      (res.failure (some ⟨(curTok ts i).posStart, (curTok ts i).posEnd, "Expected 'then'", none⟩), i)
    else
      let res := res.register_adv
      let i := i + 1
      let (sub, i) := pExpr ts f i
      let (res, thenOpt) := res.register sub
      if res.error.isSome then (res, i)
      else if ¬ (curTok ts i).is_equals .KW (.vStr "else") then
        (res.failure (some ⟨(curTok ts i).posStart, (curTok ts i).posEnd, "Expected 'else'", none⟩), i)
      else
        let res := res.register_adv
        let i := i + 1
        let (sub, i) := pExpr ts f i
        let (res, elseOpt) := res.register sub
        if res.error.isSome then (res, i)
        else match condOpt, thenOpt, elseOpt with
          | some cond, some thenE, some elseE =>
            (res.success (mkIfBlockNode cond thenE elseE), i)
          | _, _, _ => (res, i)
termination_by structural fuel

/-- `Parser.func_def` (entered with `cur_tok` = `KW:fun`). Note the source
calls `register_adv` twice before the first `advance`. -/
def pFuncDef (ts : List Token) (fuel : Nat) (a1 : Nat) : PRes × Nat :=
  match fuel, a1 with
  | 0, i => (fuelRes, i)
  | f + 1, i =>
    let res : PRes := {}
    let res := res.register_adv
    let pos_start := (curTok ts i).posStart
    let res := res.register_adv
    let i := i + 1
    let (name, res, i) :=
      if (curTok ts i).is_type [.IDENTIFIER] then
        (match (curTok ts i).value with
          | .vStr s => s
          | _ => "",   -- identifier tokens always carry a string value
         res.register_adv, i + 1)
      else ("", res, i)
    if ¬ (curTok ts i).is_type [.L_PAREN] then
      (res.failure (some ⟨(curTok ts i).posStart, (curTok ts i).posEnd,
        if name ≠ "" then "Expected '('" else "Expected Identifier or '('", none⟩), i)
    else
      let res := res.register_adv
      let i := i + 1
      let (loopOut : LoopOut (List Token)) :=
        if (curTok ts i).is_type [.IDENTIFIER] then
          pFuncDefParamsLoop ts f (res.register_adv) [curTok ts i] (i + 1)
        else .cont res [] i
      match loopOut with
      | .abort res i => (res, i)
      | .cont res parameters i =>
        if ¬ (curTok ts i).is_type [.R_PAREN] then
          (res.failure (some ⟨(curTok ts i).posStart, (curTok ts i).posEnd, "Invalid Syntax", some "fd"⟩), i)
        else
          let res := res.register_adv
          let i := i + 1
          if ¬ (curTok ts i).is_type [.COLON] then
            (res.failure (some ⟨(curTok ts i).posStart, (curTok ts i).posEnd, "Expected ':'", none⟩), i)
          else
            let res := res.register_adv
            let i := i + 1
            let (sub, i) := pExpr ts f i
            let (res, exprOpt) := res.register sub
            if res.error.isSome then (res, i)
            else match exprOpt with
              | some e =>
                (res.success ((mkFuncDefNode name parameters e).set_pos pos_start e.posEnd), i)
              | none => (res, i)
termination_by structural fuel

/-- The `while self.cur_tok.is_type(t.COMMA)` parameter loop of
`Parser.func_def`. -/
def pFuncDefParamsLoop (ts : List Token) (fuel : Nat) (a1 : PRes) (a2 : List Token) (a3 : Nat) : LoopOut (List Token) :=
  match fuel, a1, a2, a3 with
  | 0, res, _, i => .abort (res.failure fuelRes.error) i
  | f + 1, res, parameters, i =>
    if (curTok ts i).is_type [.COMMA] then
      let res := res.register_adv
      let i := i + 1
      if (curTok ts i).is_type [.IDENTIFIER] then
        pFuncDefParamsLoop ts f (res.register_adv) (parameters ++ [curTok ts i]) (i + 1)
      else if (curTok ts i).is_type [.R_PAREN] then .cont res parameters i
      else
        .abort (res.failure (some ⟨(curTok ts i).posStart, (curTok ts i).posEnd, "Expected ',' or ')'", none⟩)) i
    else .cont res parameters i
termination_by structural fuel

/-- `Parser.bin_oper(func_left, operators, func_right)`: parse a left operand,
then fold `(op, right-operand)` pairs into left-nested `BinOpNode`s. -/
def bin_oper (ts : List Token) (fuel : Nat) (a1 : SubP) (a2 : List OpSpec) (a3 : SubP) (a4 : Nat) : PRes × Nat :=
  match fuel, a1, a2, a3, a4 with
  | 0, _, _, _, i => (fuelRes, i)
  | f + 1, lTag, ops, rTag, i =>
    let res : PRes := {}
    let (sub, i) := runSub ts f lTag i
    let (res, leftOpt) := res.register sub
    if res.error.isSome then (res, i)
    else match leftOpt with
      | none => (res, i)
      | some left => binOperLoop ts f ops rTag res left i
termination_by structural fuel

/-- The `while` loop of `bin_oper`. -/
def binOperLoop (ts : List Token) (fuel : Nat) (a1 : List OpSpec) (a2 : SubP) (a3 : PRes) (a4 : Node) (a5 : Nat) : PRes × Nat :=
  match fuel, a1, a2, a3, a4, a5 with
  | 0, _, _, _, _, i => (fuelRes, i)
  | f + 1, ops, rTag, res, left, i =>
    if opMatches (curTok ts i) ops then
      let op_tok := curTok ts i
      let res := res.register_adv
      let i := i + 1
      let (sub, i) := runSub ts f rTag i
      let (res, rightOpt) := res.register sub
      if res.error.isSome then (res, i)
      else match rightOpt with
        | none => (res, i)
        | some right => binOperLoop ts f ops rTag res (mkBinOpNode left op_tok right) i
    else (res.success left, i)
termination_by structural fuel

/-- Dispatch a production tag to its parsing function. -/
def runSub (ts : List Token) (fuel : Nat) (a1 : SubP) (a2 : Nat) : PRes × Nat :=
  match fuel, a1, a2 with
  | 0, _, i => (fuelRes, i)
  | f + 1, tag, i =>
    match tag with
    | .sExpr => pExpr ts f i
    | .sComp => pCompExpr ts f i
    | .sArith => pArithExpr ts f i
    | .sTerm => pTerm ts f i
    | .sFactor => pFactor ts f i
    | .sCall => pCall ts f i
termination_by structural fuel

end

/-- `Parser.parse`: run `expr` from the first token, then require the cursor
to rest on an end-of-input or newline token. -/
def pParse (ts : List Token) (fuel : Nat) : PRes × Nat :=
  let (res, i) := pExpr ts fuel 0
  if res.error.isNone && ¬ (curTok ts i).is_type [.EOF, .NEWLINE] then
    (res.failure (some ⟨(curTok ts i).posStart, (curTok ts i).posEnd, "Invalid Syntax", some "p"⟩), i)
  else (res, i)

/-- `make_ast(tokens)` returning `(res.node, res.error)`. -/
def make_ast (ts : List Token) (fuel : Nat) : Option Node × Option PErr :=
  let (res, _) := pParse ts fuel
  (res.node, res.error)

/-! ## Runtime value model (`interpreter.py`) -/

/-- The bookkeeping fields of every runtime `Object`: an optional source span
and an optional owning context (modelled by the id of its scope frame). -/
structure VInfo where
  ps : Option Nat := none
  pe : Option Nat := none
  ctx : Option Nat := none
deriving DecidableEq, Repr

/-- Runtime values: `Number`, `Bool` and `Function` from `interpreter.py`.
A `Function` carries its declared name, parameter tokens, body and, through
`info.ctx`, the scope captured at its definition site. -/
inductive Value where
  | num (v : ℚ) (info : VInfo)
  | bool (b : Bool) (info : VInfo)
  | func (name : String) (parameters : List Token) (body : Node) (info : VInfo)
deriving Repr

/-- The `pos_start`/`pos_end`/`context` bookkeeping of a value. -/
def Value.info : Value → VInfo
  | .num _ i => i
  | .bool _ i => i
  | .func _ _ _ i => i

/-- `Object.set_pos`. -/
def Value.set_pos : Value → Option Nat → Option Nat → Value
  | .num v i, a, b => .num v { i with ps := a, pe := b }
  | .bool v i, a, b => .bool v { i with ps := a, pe := b }
  | .func n p bd i, a, b => .func n p bd { i with ps := a, pe := b }

/-- `Number.copy` / `Bool.copy` / `Function.copy`: a fresh object with the
same payload, span and context — the identity on this immutable model. -/
def Value.copy (v : Value) : Value := v

/-- `type_name` of each value class. -/
def Value.type_name : Value → String
  | .num .. => "Number"
  | .bool .. => "Bool"
  | .func .. => "Function"

/-- Modelled from the spec: `utils.RTError` (the `utils` module is not part of
the repository's core sources). Per the spec's error-object contract it
carries a start/end position, a message, and the originating context. -/
structure RTErr where
  ps : Option Nat
  pe : Option Nat
  msg : String
  ctx : Option Nat := none
deriving DecidableEq, Repr

/-- `RTError.set_pos` (used by `visit_BinOpNode` / `visit_FuncCallNode` to
re-stamp a propagated error with the enclosing node's span). -/
def RTErr.set_pos (e : RTErr) (a b : Option Nat) : RTErr :=
  { e with ps := a, pe := b }

/-- `Object.not_supported(what, other)`. -/
def not_supported (self : Value) (what : String) (other : Value) : RTErr :=
  ⟨self.info.ps, self.info.pe,
    self.type_name ++ " does not support " ++ what ++ " with " ++ other.type_name,
    self.info.ctx⟩

/-- Python `bool(x)` on runtime values: `Bool.__bool__` returns the stored
flag, `Number.__bool__` tests nonzero, and `Function` (no `__bool__` of its
own) defaults to `True`. -/
def pyBool : Value → Bool
  | .num v _ => decide (v ≠ 0)
  | .bool b _ => b
  | .func .. => true

/-- `is_truthy`: `Bool` → `Bool(self.value)`, `Number` → `Bool(bool(value))`,
any other `Object` (so `Function`) → `Bool(True)`. -/
def is_truthy (v : Value) : Value := .bool (pyBool v) {}

/-- Python `int(·)` on a number: truncation toward zero. -/
def pyTrunc (q : ℚ) : ℤ := q.num.tdiv (q.den : ℤ)

/-- Python `**` modelled exactly on rationals: integer exponents are exact.
`0 ** negative` raises `ZeroDivisionError` in Python and a non-integer
exponent produces an irrational/float result; both are modelled as `none`
(a crash below) and exercised by no claim. -/
def numPow (a b : ℚ) : Option ℚ :=
  if b.den = 1 then
    if 0 ≤ b.num then some (a ^ b.num.toNat)
    else if a = 0 then none
    else some ((a ^ (-b.num).toNat)⁻¹)
  else none

/-- What a binary operator method returns: a `(result, error)` pair, or a
host-level Python exception (e.g. `AttributeError` on a missing attribute). -/
inductive OpRet where
  | pair (result : Option Value) (error : Option RTErr)
  | pyCrash (msg : String)
deriving Repr

/-- `operate_plus`: `Number × Number` adds; anything else falls back to
`Object.operate_plus`'s not-supported error. -/
def operate_plus (self other : Value) : OpRet :=
  match self, other with
  | .num a i, .num b _ => .pair (some (.num (a + b) { ctx := i.ctx })) none
  | _, _ => .pair none (some (not_supported self "+ operator" other))

/-- `operate_minus`. -/
def operate_minus (self other : Value) : OpRet :=
  match self, other with
  | .num a i, .num b _ => .pair (some (.num (a - b) { ctx := i.ctx })) none
  | _, _ => .pair none (some (not_supported self "- operator" other))

/-- `operate_mul`. -/
def operate_mul (self other : Value) : OpRet :=
  match self, other with
  | .num a i, .num b _ => .pair (some (.num (a * b) { ctx := i.ctx })) none
  | _, _ => .pair none (some (not_supported self "* operator" other))

/-- `Number.operate_div`: non-`Number` operand → not-supported error; zero
divisor → the distinct "Division by Zero" error stamped with the divisor's
span and the left operand's context; otherwise the exact quotient. -/
def operate_div (self other : Value) : OpRet :=
  match self, other with
  | .num a i, .num b j =>
    if b = 0 then .pair none (some ⟨j.ps, j.pe, "Division by Zero", i.ctx⟩)
    else .pair (some (.num (a / b) { ctx := i.ctx })) none
  | _, _ => .pair none (some (not_supported self "/ operator" other))

/-- `operate_pow`. -/
def operate_pow (self other : Value) : OpRet :=
  match self, other with
  | .num a i, .num b _ =>
    match numPow a b with
    | some q => .pair (some (.num q { ctx := i.ctx })) none
    | none => .pyCrash "model: ** outside the rational model"
  | _, _ => .pair none (some (not_supported self "^ operator" other))

/-- `compare_eq`. -/
def compare_eq (self other : Value) : OpRet :=
  match self, other with
  | .num a i, .num b _ => .pair (some (.bool (decide (a = b)) { ctx := i.ctx })) none
  | _, _ => .pair none (some (not_supported self "== operator" other))

/-- `compare_ne`. -/
def compare_ne (self other : Value) : OpRet :=
  match self, other with
  | .num a i, .num b _ => .pair (some (.bool (decide (a ≠ b)) { ctx := i.ctx })) none
  | _, _ => .pair none (some (not_supported self "!= operator" other))

/-- `compare_gt`. -/
def compare_gt (self other : Value) : OpRet :=
  match self, other with
  | .num a i, .num b _ => .pair (some (.bool (decide (b < a)) { ctx := i.ctx })) none
  | _, _ => .pair none (some (not_supported self "> operator" other))

/-- `compare_lt`. -/
def compare_lt (self other : Value) : OpRet :=
  match self, other with
  | .num a i, .num b _ => .pair (some (.bool (decide (a < b)) { ctx := i.ctx })) none
  | _, _ => .pair none (some (not_supported self "< operator" other))

/-- `compare_gte`. -/
def compare_gte (self other : Value) : OpRet :=
  match self, other with
  | .num a i, .num b _ => .pair (some (.bool (decide (b ≤ a)) { ctx := i.ctx })) none
  | _, _ => .pair none (some (not_supported self ">= operator" other))

/-- `compare_lte`. -/
def compare_lte (self other : Value) : OpRet :=
  match self, other with
  | .num a i, .num b _ => .pair (some (.bool (decide (a ≤ b)) { ctx := i.ctx })) none
  | _, _ => .pair none (some (not_supported self "<= operator" other))

/-- `Number.logic_and`: `Bool(int(self.value and other.value))` — Python's
`and` yields the left number if it is zero, else the right one, and `int`
truncates before the `Bool` conversion. -/
def numAnd (a b : ℚ) : Bool :=
  if a = 0 then false else decide (pyTrunc b ≠ 0)

/-- `Number.logic_or`: `Bool(int(self.value or other.value))`. -/
def numOr (a b : ℚ) : Bool :=
  if a = 0 then decide (pyTrunc b ≠ 0) else decide (pyTrunc a ≠ 0)

/-- `logic_and` dispatch: `Number` requires a `Number` operand (else the
not-supported error); `Bool` computes `Bool(self.value and other.value)`,
where the host `and` short-circuits — a false left operand yields
`Bool(False)` without touching `other.value`, while a true one reads
`other.value`, which crashes with an `AttributeError` when `other` is a
`Function`; `Function` falls back to `Object.logic_and`'s not-supported
error. -/
def logic_and (self other : Value) : OpRet :=
  match self with
  | .num a i =>
    match other with
    | .num b _ => .pair (some (.bool (numAnd a b) { ctx := i.ctx })) none
    | _ => .pair none (some (not_supported self "'and' logic" other))
  | .bool a i =>
    if a then
      match other with
      | .num b _ => .pair (some (.bool (decide (b ≠ 0)) { ctx := i.ctx })) none
      | .bool b _ => .pair (some (.bool b { ctx := i.ctx })) none
      | .func .. => .pyCrash "AttributeError: Function has no attribute value"
    else .pair (some (.bool false { ctx := i.ctx })) none
  | .func .. => .pair none (some (not_supported self "'and' logic" other))

/-- `logic_or` dispatch (same shape as `logic_and`): the host `or`
short-circuits, so a true Bool left operand yields `Bool(True)` without
touching `other.value`; a false one reads `other.value`, crashing for a
`Function` operand. -/
def logic_or (self other : Value) : OpRet :=
  match self with
  | .num a i =>
    match other with
    | .num b _ => .pair (some (.bool (numOr a b) { ctx := i.ctx })) none
    | _ => .pair none (some (not_supported self "'or' logic" other))
  | .bool a i =>
    if a then .pair (some (.bool true { ctx := i.ctx })) none
    else
      match other with
      | .num b _ => .pair (some (.bool (decide (b ≠ 0)) { ctx := i.ctx })) none
      | .bool b _ => .pair (some (.bool b { ctx := i.ctx })) none
      | .func .. => .pyCrash "AttributeError: Function has no attribute value"
  | .func .. => .pair none (some (not_supported self "'or' logic" other))

/-- What `logic_not` returns: `Number.logic_not` and `Object.logic_not`
return a `(result, error)` pair, but `Bool.logic_not` returns a bare `Bool`
object — not a pair. -/
inductive NotRet where
  | pair (result : Option Value) (error : Option RTErr)
  | bare (v : Value)
deriving Repr

/-- `logic_not` dispatch: `Number` → `(Bool(int(not value)), None)`;
`Bool` → the bare `Bool(not value)` (no pair); `Function` →
`Object.logic_not`'s `(None, not-supported)` pair. -/
def logic_not (self : Value) : NotRet :=
  match self with
  | .num a i => .pair (some (.bool (decide (a = 0)) { ctx := i.ctx })) none
  | .bool b i => .bare (.bool (!b) { ctx := i.ctx })
  | .func .. => .pair none (some (not_supported self "'not' logic" self))

/-! ## Scopes, store and the interpreter -/

/-- A `SymbolMap`: one mutable dict frame plus an optional parent frame,
referred to by its index in the store. -/
structure Frame where
  map : List (TVal × Value) := []
  parent : Option Nat := none
deriving Repr

/-- The heap of scope frames (Python aliases frames by reference; we index
into this list). -/
abbrev Store := List Frame

/-- Python dict update: overwrite in place, else append (insertion order). -/
def mapSet : List (TVal × Value) → TVal → Value → List (TVal × Value)
  | [], k, v => [(k, v)]
  | (k', v') :: rest, k, v =>
    if k' = k then (k, v) :: rest else (k', v') :: mapSet rest k v

/-- Python `dict.get(key, None)`. -/
def mapGet : List (TVal × Value) → TVal → Option Value
  | [], _ => none
  | (k', v') :: rest, k => if k' = k then some v' else mapGet rest k

/-- `SymbolMap.get`, walking the parent chain. The recursion is fueled by the
chain length (parents always refer to strictly earlier frames, so
`store.length + 1` always suffices; the fuel is a modelling device only). -/
def smGetAux (store : Store) : Nat → Nat → TVal → Option Value
  | 0, _, _ => none
  | f + 1, id, k =>
    match store.get? id with
    | none => none
    | some fr =>
      match mapGet fr.map k with
      | some v => some v
      | none =>
        match fr.parent with
        | some p => smGetAux store f p k
        | none => none

/-- `SymbolMap.get` on frame `id` of the store. -/
def smGet (store : Store) (id : Nat) (k : TVal) : Option Value :=
  smGetAux store (store.length + 1) id k

/-- `SymbolMap.set` on frame `id` of the store. -/
def smSet (store : Store) (id : Nat) (k : TVal) (v : Value) : Store :=
  match store.get? id with
  | none => store
  | some fr => store.set id { fr with map := mapSet fr.map k v }

/-- The name rendered into the "not defined" message: identifier tokens always
carry a string value (the other renderings are never reached). -/
def tvalName : TVal → String
  | .vStr s => s
  | .vNone => "None"
  | .vNum _ => "?"

/-- Result of one evaluation step: a value or a structured `RTError` (each
with the store as mutated so far), a host-level Python exception, or fuel
exhaustion (a modelling device no theorem reaches). -/
inductive Outcome where
  | ok (v : Value) (s : Store)
  | err (e : RTErr) (s : Store)
  | pyExc (msg : String)
  | nofuel
deriving Repr

/-- Result of `visit_FuncCallNode`'s argument loop. -/
inductive ArgsOut where
  | argsOk (args : List Value) (s : Store)
  | argsErr (o : Outcome)
deriving Repr

/-- The parameter-binding loop of `Function.execute`:
`context.symbol_map.set(parameter.value, arg)` in order. -/
def bindParams : Store → Nat → List Token → List Value → Store
  | store, _, [], _ => store
  | store, _, _ :: _, [] => store
  | store, id, p :: ps, a :: args => bindParams (smSet store id p.value a) id ps args

mutual

/-- `Interpreter.visit`, dispatching on the node variant (fueled). -/
def visit (fuel : Nat) (a1 : Node) (a2 : Nat) (a3 : Store) : Outcome :=
  match fuel, a1, a2, a3 with
  | 0, _, _, _ => .nofuel
  | f + 1, node, ctx, store =>
    match node with
    | .number tok ps pe =>
      match tok.value with
      | .vNum q => .ok (.num q ⟨ps, pe, some ctx⟩) store
      | _ => .pyExc "model: NumberNode token without numeric value"
    | .literal tok ps pe =>
      -- visit_LiteralNode: checks for 'true' / 'false'; anything else falls
      -- off the end of the Python function (returns None → crash downstream)
      if tok.value = .vStr "true" then .ok (.bool true ⟨ps, pe, some ctx⟩) store
      else if tok.value = .vStr "false" then .ok (.bool false ⟨ps, pe, some ctx⟩) store
      else .pyExc "visit_LiteralNode returned None"
    | .varAccess nameTok ps pe =>
      -- `value = context.symbol_map.get(var_name)`, then `if not value:` —
      -- the branch is taken both when the lookup found nothing and when the
      -- found value is falsy (Number 0, Bool False)
      match smGet store ctx nameTok.value with
      | none => .err ⟨ps, pe, "'" ++ tvalName nameTok.value ++ "' not defined", some ctx⟩ store
      | some v =>
        if ¬ pyBool v then
          .err ⟨ps, pe, "'" ++ tvalName nameTok.value ++ "' not defined", some ctx⟩ store
        else .ok ((v.copy).set_pos ps pe) store
    | .varAssign nameTok valueNode _ _ =>
      match visit f valueNode ctx store with
      | .ok v store => .ok v (smSet store ctx nameTok.value v)
      | o => o
    | .binOp l op r ps pe =>
      match visit f l ctx store with
      | .ok lv store =>
        match visit f r ctx store with
        | .ok rv store =>
          let ret : OpRet :=
            if op.is_type [.PLUS] then operate_plus lv rv
            else if op.is_type [.MINUS] then operate_minus lv rv
            else if op.is_type [.MUL] then operate_mul lv rv
            else if op.is_type [.DIV] then operate_div lv rv
            else if op.is_type [.POW] then operate_pow lv rv
            else if op.is_type [.EE] then compare_eq lv rv
            else if op.is_type [.NE] then compare_ne lv rv
            else if op.is_type [.LT] then compare_lt lv rv
            else if op.is_type [.GT] then compare_gt lv rv
            else if op.is_type [.LTE] then compare_lte lv rv
            else if op.is_type [.GTE] then compare_gte lv rv
            else if op.is_equals .KW (.vStr "and") then logic_and lv rv
            else if op.is_equals .KW (.vStr "or") then logic_or lv rv
            else .pyCrash "UnboundLocalError: result"
          match ret with
          | .pyCrash m => .pyExc m
          | .pair result error =>
            match error with
            | some e => .err (e.set_pos ps pe) store
            | none =>
              match result with
              | some v => .ok (v.set_pos ps pe) store
              | none => .pyExc "AttributeError: NoneType has no set_pos"
        | o => o
      | o => o
    | .unaryOp op sub ps pe =>
      match visit f sub ctx store with
      | .ok v store =>
        if op.is_type [.MINUS] then
          -- number, error = number.operate_mul(Number(-1))
          match operate_mul v (.num (-1) {}) with
          | .pyCrash m => .pyExc m
          | .pair result error =>
            match error with
            | some e => .err e store
            | none =>
              match result with
              | some n => .ok (n.set_pos ps pe) store
              | none => .pyExc "AttributeError: NoneType has no set_pos"
        else if op.is_equals .KW (.vStr "not") then
          -- number, error = number.logic_not() — unpacking a bare Bool crashes
          match logic_not v with
          | .bare _ => .pyExc "TypeError: cannot unpack non-iterable Bool object"
          | .pair result error =>
            match error with
            | some e => .err e store
            | none =>
              match result with
              | some n => .ok (n.set_pos ps pe) store
              | none => .pyExc "AttributeError: NoneType has no set_pos"
        else .ok (v.set_pos ps pe) store
      | o => o
    | .ifBlock cond thenE elseE _ _ =>
      match visit f cond ctx store with
      | .ok cv store =>
        -- `if cond.is_truthy():` — Python takes the Bool's __bool__
        if pyBool (is_truthy cv) then visit f thenE ctx store
        else visit f elseE ctx store
      | o => o
    | .funcDef name params body ps pe =>
      -- Function(...).set_pos(node span).set_context(current context), then
      -- context.symbol_map.set(node.name, func) — unconditionally, so an
      -- anonymous definition registers under the placeholder name
      let func : Value := .func name params body ⟨ps, pe, some ctx⟩
      .ok func (smSet store ctx (.vStr name) func)
    | .funcCall callee argNodes ps pe =>
      match visit f callee ctx store with
      | .ok cv store =>
        let value_to_call := (cv.copy).set_pos ps pe
        match visitArgs f argNodes ctx store [] with
        | .argsErr o => o
        | .argsOk args store =>
          match value_to_call with
          | .func .. =>
            match functionExecute f value_to_call args store with
            | .ok rv store => .ok rv store
            | .err e store => .err (e.set_pos ps pe) store
            | o => o
          | _ => .pyExc "AttributeError: object has no attribute execute"
      | o => o
termination_by structural fuel

/-- The argument loop of `visit_FuncCallNode`: evaluate each argument in
order, aborting at the first error. -/
def visitArgs (fuel : Nat) (a1 : List Node) (a2 : Nat) (a3 : Store) (a4 : List Value) : ArgsOut :=
  match fuel, a1, a2, a3, a4 with
  | 0, _, _, _, _ => .argsErr .nofuel
  | _ + 1, [], _, store, acc => .argsOk acc store
  | f + 1, n :: rest, ctx, store, acc =>
    match visit f n ctx store with
    | .ok v store => visitArgs f rest ctx store (acc ++ [v])
    | o => .argsErr o
termination_by structural fuel

/-- `Function.execute`: allocate the call scope parented to the function's
captured definition scope, check the arity, bind the parameters and evaluate
the body there. -/
def functionExecute (fuel : Nat) (a1 : Value) (a2 : List Value) (a3 : Store) : Outcome :=
  match fuel, a1, a2, a3 with
  | 0, _, _, _ => .nofuel
  | f + 1, self, args, store =>
    match self with
    | .func name params body info =>
      match info.ctx with
      | none => .pyExc "AttributeError: NoneType has no attribute symbol_map"
      | some defScope =>
        -- Context(self.name, self.context, self.pos_start,
        --         SymbolMap(self.context.symbol_map))
        let newId := store.length
        let store := store ++ [{ map := [], parent := some defScope }]
        if params.length ≠ args.length then
          .err ⟨info.ps, info.pe,
            (if args.length > params.length then "Too many" else "Not enough") ++
              " arguments given into " ++ name ++ ", takes " ++ toString params.length,
            some newId⟩ store
        else
          visit f body newId (bindParams store newId params args)
    | _ => .pyExc "AttributeError: object has no attribute execute"
termination_by structural fuel

end

/-! ## The `run` entry point (REPL semantics) and example programs -/

/-- The observable result of one `run(...)` call: `(value, None)`,
`(None, runtime error)`, `(None, parse error)`, or one of the two modelling
outcomes (host crash / fuel). -/
inductive RunRes where
  | val (v : Value)
  | rtErr (e : RTErr)
  | parseErr (e : PErr)
  | hostCrash (m : String)
  | fuel
deriving Repr

/-- Repeated `run(file, line)` calls against the persistent global scope
(frame `0` of the store): tokenizing is external, so each line is a token
list; each is parsed with `make_ast` and interpreted in the `<module>`
context, threading the mutated global scope to the next line. The result is
the last line's result. -/
def runLines (fuel : Nat) : List (List Token) → Store → RunRes
  | [], _ => .hostCrash "model: empty program"
  | ts :: rest, store =>
    match make_ast ts fuel with
    | (_, some e) => .parseErr e
    | (none, none) => .hostCrash "model: parser returned no node"
    | (some n, none) =>
      match visit fuel n 0 store, rest with
      | .ok v _, [] => .val v
      | .ok _ s, _ :: _ => runLines fuel rest s
      | .err e _, _ => .rtErr e
      | .pyExc m, _ => .hostCrash m
      | .nofuel, _ => .fuel

/-- The numeric payload of a successful result, if any. -/
def numOf : RunRes → Option ℚ
  | .val (.num q _) => some q
  | _ => none

/-- The runtime-error message of a failed result, if any. -/
def errOf : RunRes → Option String
  | .rtErr e => some e.msg
  | _ => none

/-- The host-exception message of a crashed result, if any. -/
def crashOf : RunRes → Option String
  | .hostCrash m => some m
  | _ => none

/-- A fresh global scope: one empty frame with no parent. -/
def initStore : Store := [{}]

/-- An `INT` token at character `p`. -/
def tINT (q : ℚ) (p : Nat) : Token := ⟨.INT, .vNum q, some p, some (p + 1)⟩

/-- A value-less token (operator, punctuation, EOF) at character `p`. -/
def tOP (ty : TType) (p : Nat) : Token := ⟨ty, .vNone, some p, some (p + 1)⟩

/-- An `IDENTIFIER` token at character `p`. -/
def tID (s : String) (p : Nat) : Token := ⟨.IDENTIFIER, .vStr s, some p, some (p + 1)⟩

/-- A `KW` (keyword) token at character `p`. -/
def tKW (s : String) (p : Nat) : Token := ⟨.KW, .vStr s, some p, some (p + 1)⟩

/-- A `LITERAL` (boolean) token at character `p`. -/
def tLIT (s : String) (p : Nat) : Token := ⟨.LITERAL, .vStr s, some p, some (p + 1)⟩

/-- Tokens of `fun add(a, b): a + b`. -/
def addDefToks : List Token :=
  [tKW "fun" 0, tID "add" 4, tOP .L_PAREN 7, tID "a" 8, tOP .COMMA 9, tID "b" 11,
   tOP .R_PAREN 12, tOP .COLON 13, tID "a" 15, tOP .PLUS 17, tID "b" 19, tOP .EOF 20]

/-- Tokens of `add(2, 3)`. -/
def addCall2Toks : List Token :=
  [tID "add" 0, tOP .L_PAREN 3, tINT 2 4, tOP .COMMA 5, tINT 3 6, tOP .R_PAREN 7, tOP .EOF 8]

/-- Tokens of `add(2)`. -/
def addCall1Toks : List Token :=
  [tID "add" 0, tOP .L_PAREN 3, tINT 2 4, tOP .R_PAREN 5, tOP .EOF 6]

/-- Tokens of `add(2, 3, 4)`. -/
def addCall3Toks : List Token :=
  [tID "add" 0, tOP .L_PAREN 3, tINT 2 4, tOP .COMMA 5, tINT 3 6, tOP .COMMA 7,
   tINT 4 8, tOP .R_PAREN 9, tOP .EOF 10]

/-- Tokens of `fun make(x): fun(y): x + y`. -/
def makeDefToks : List Token :=
  [tKW "fun" 0, tID "make" 4, tOP .L_PAREN 8, tID "x" 9, tOP .R_PAREN 10, tOP .COLON 11,
   tKW "fun" 13, tOP .L_PAREN 17, tID "y" 18, tOP .R_PAREN 19, tOP .COLON 20,
   tID "x" 22, tOP .PLUS 24, tID "y" 26, tOP .EOF 27]

/-- Tokens of `let g = make(10)`. -/
def letGToks : List Token :=
  [tKW "let" 0, tID "g" 4, tOP .EQ 6, tID "make" 8, tOP .L_PAREN 12, tINT 10 13,
   tOP .R_PAREN 15, tOP .EOF 16]

/-- Tokens of `g(5)`. -/
def callGToks : List Token :=
  [tID "g" 0, tOP .L_PAREN 1, tINT 5 2, tOP .R_PAREN 3, tOP .EOF 4]

/-- Tokens of `a + b * c` with symbolic number payloads at positions 0..4. -/
def add3Toks (a b c : ℚ) : List Token :=
  [tINT a 0, tOP .PLUS 1, tINT b 2, tOP .MUL 3, tINT c 4, tOP .EOF 5]

/-- Tokens of `a ^ b ^ c`. -/
def pow3Toks (a b c : ℚ) : List Token :=
  [tINT a 0, tOP .POW 1, tINT b 2, tOP .POW 3, tINT c 4, tOP .EOF 5]

/-- Tokens of `a - b - c`. -/
def sub3Toks (a b c : ℚ) : List Token :=
  [tINT a 0, tOP .MINUS 1, tINT b 2, tOP .MINUS 3, tINT c 4, tOP .EOF 5]

/-- Tokens of `2 + 3 * 4`. -/
def twoPlusThreeMulFourToks : List Token := add3Toks 2 3 4

/-- Tokens of `2 ^ 3 ^ 2`. -/
def twoPowThreePowTwoToks : List Token := pow3Toks 2 3 2

/-- Tokens of `if 1 < 2 then 10 else y` (`y` is never defined). -/
def ifLtToks : List Token :=
  [tKW "if" 0, tINT 1 3, tOP .LT 5, tINT 2 7, tKW "then" 9, tINT 10 14,
   tKW "else" 17, tID "y" 22, tOP .EOF 23]

/-- Tokens of `let x = 0`. -/
def letX0Toks : List Token :=
  [tKW "let" 0, tID "x" 4, tOP .EQ 6, tINT 0 8, tOP .EOF 9]

/-- Tokens of `x`. -/
def xToks : List Token := [tID "x" 0, tOP .EOF 1]

/-- Tokens of `1 / 0`. -/
def oneDivZeroToks : List Token :=
  [tINT 1 0, tOP .DIV 1, tINT 0 2, tOP .EOF 3]

/-- Tokens of `not true`. -/
def notTrueToks : List Token :=
  [tKW "not" 0, tLIT "true" 4, tOP .EOF 8]

/-- Tokens of `if 1 then 2 else 3`. -/
def if123Toks : List Token :=
  [tKW "if" 0, tINT 1 3, tKW "then" 5, tINT 2 10, tKW "else" 12, tINT 3 17, tOP .EOF 18]

/-- Tokens of `if fun(z): z then 1 else nope` — the condition evaluates to a
Function value and `nope` is never defined. -/
def ifFunToks : List Token :=
  [tKW "if" 0, tKW "fun" 3, tOP .L_PAREN 7, tID "z" 8, tOP .R_PAREN 9, tOP .COLON 10,
   tID "z" 12, tKW "then" 14, tINT 1 19, tKW "else" 21, tID "nope" 26, tOP .EOF 30]

/-- The global store after `let x = 0`: `x` is bound to the Number `0`. -/
def xZeroStore : Store :=
  [{ map := [(.vStr "x", Value.num 0 ⟨some 8, some 9, some 0⟩)] }]

/-- The body `1` of the anonymous example function. -/
def anonBody : Node := mkNumberNode (tINT 1 14)

/-- The node the parser builds for the anonymous definition `fun (): 1`. -/
def anonDefNode : Node := (mkFuncDefNode "" [] anonBody).set_pos (some 0) (some 15)

/-- The Function value produced by evaluating `anonDefNode` in the global
scope. -/
def anonFunc : Value := .func "[lambda]" [] anonBody ⟨some 0, some 15, some 0⟩

/-- Two distinct concrete parse errors, for the `ParseResult` claims. -/
def pErr1 : PErr := ⟨some 0, some 1, "first error", none⟩

/-- A second distinct concrete parse error. -/
def pErr2 : PErr := ⟨some 2, some 3, "second error", none⟩

/-! ## Helper lemmas -/

theorem mapGet_mapSet_self (m : List (TVal × Value)) (k : TVal) (v : Value) :
    mapGet (mapSet m k v) k = some v := by
  induction m with
  | nil => simp [mapSet, mapGet]
  | cons hd tl ih =>
    rcases hd with ⟨k', v'⟩
    by_cases h : k' = k
    · simp [mapSet, h, mapGet]
    · simp [mapSet, h, mapGet, ih]

theorem mapGet_mapSet_other (m : List (TVal × Value)) (k : TVal) (v : Value)
    (k' : TVal) (hk : k' ≠ k) : mapGet (mapSet m k v) k' = mapGet m k' := by
  have hk' : ¬ k = k' := fun h => hk h.symm
  induction m with
  | nil => simp [mapSet, mapGet, hk']
  | cons hd tl ih =>
    rcases hd with ⟨k0, v0⟩
    by_cases h : k0 = k
    · simp [mapSet, h, mapGet, hk']
    · simp [mapSet, h, mapGet, ih]

/-! ## The claims -/

/-- Claim C1: a function call evaluates the callee to a Function, evaluates
the arguments left-to-right aborting at the first error, rejects arity
mismatches with a "Not enough"/"Too many" `RuntimeError`, and on a match runs
the body in a fresh scope parented to the function's captured definition
scope with each parameter bound to its argument — so `add(2, 3)` is `5` and
the `make`/closure example applied to `5` is `15`. -/
theorem c1_function_call_semantics :
    (∀ (f : Nat) (name : String) (params : List Token) (body : Node)
        (ps pe : Option Nat) (c : Nat) (args : List Value) (store : Store),
      params.length = args.length →
        functionExecute (f + 1) (.func name params body ⟨ps, pe, some c⟩) args store =
          visit f body store.length
            (bindParams (store ++ [{ map := [], parent := some c }]) store.length params args)) ∧
    (∀ (f : Nat) (name : String) (params : List Token) (body : Node)
        (ps pe : Option Nat) (c : Nat) (args : List Value) (store : Store),
      args.length < params.length →
        functionExecute (f + 1) (.func name params body ⟨ps, pe, some c⟩) args store =
          .err ⟨ps, pe, "Not enough arguments given into " ++ name ++ ", takes " ++
                toString params.length, some store.length⟩
            (store ++ [{ map := [], parent := some c }])) ∧
    (∀ (f : Nat) (name : String) (params : List Token) (body : Node)
        (ps pe : Option Nat) (c : Nat) (args : List Value) (store : Store),
      params.length < args.length →
        functionExecute (f + 1) (.func name params body ⟨ps, pe, some c⟩) args store =
          .err ⟨ps, pe, "Too many arguments given into " ++ name ++ ", takes " ++
                toString params.length, some store.length⟩
            (store ++ [{ map := [], parent := some c }])) ∧
    (∀ (f : Nat) (n : Node) (rest : List Node) (ctx : Nat) (store : Store)
        (acc : List Value) (e : RTErr) (s' : Store),
      visit f n ctx store = .err e s' →
        visitArgs (f + 1) (n :: rest) ctx store acc = .argsErr (.err e s')) ∧
    numOf (runLines 99 [addDefToks, addCall2Toks] initStore) = some 5 ∧
    errOf (runLines 99 [addDefToks, addCall1Toks] initStore) =
      some "Not enough arguments given into add, takes 2" ∧
    errOf (runLines 99 [addDefToks, addCall3Toks] initStore) =
      some "Too many arguments given into add, takes 2" ∧
    numOf (runLines 300 [makeDefToks, letGToks, callGToks] initStore) = some 15 := by
  refine ⟨?_, ?_, ?_, ?_, ?_, ?_, ?_, ?_⟩
  · intro f name params body ps pe c args store h
    simp [functionExecute, h]
  · intro f name params body ps pe c args store h
    have h1 : params.length ≠ args.length := by omega
    have h2 : ¬ args.length > params.length := by omega
    simp [functionExecute, h1, h2]
  · intro f name params body ps pe c args store h
    have h1 : params.length ≠ args.length := by omega
    have h2 : args.length > params.length := by omega
    simp [functionExecute, h1, h2]
  · intro f n rest ctx store acc e s' h
    simp [visitArgs, h]
  · with_unfolding_all rfl
  · with_unfolding_all rfl
  · with_unfolding_all rfl
  · with_unfolding_all rfl

/-- Witness for C1: instantiating the general parts at concrete inputs —
a one-parameter function applied to one argument runs its body in the fresh
scope, and arity mismatches produce the two error messages. -/
theorem c1_function_call_semantics_witness :
    functionExecute 2 (.func "id" [tID "w" 0] (mkVarAccessNode (tID "w" 0)) ⟨none, none, some 0⟩)
        [Value.num 7 {}] initStore =
      visit 1 (mkVarAccessNode (tID "w" 0)) 1
        (bindParams (initStore ++ [{ map := [], parent := some 0 }]) 1
          [tID "w" 0] [Value.num 7 {}]) ∧
    functionExecute 2 (.func "id" [tID "w" 0] (mkVarAccessNode (tID "w" 0)) ⟨none, none, some 0⟩)
        [] initStore =
      .err ⟨none, none, "Not enough arguments given into id, takes 1", some 1⟩
        (initStore ++ [{ map := [], parent := some 0 }]) ∧
    functionExecute 2 (.func "id" [tID "w" 0] (mkVarAccessNode (tID "w" 0)) ⟨none, none, some 0⟩)
        [Value.num 7 {}, Value.num 8 {}] initStore =
      .err ⟨none, none, "Too many arguments given into id, takes 1", some 1⟩
        (initStore ++ [{ map := [], parent := some 0 }]) ∧
    visitArgs 2 [mkVarAccessNode (tID "y" 0)] 0 initStore [] =
      .argsErr (.err ⟨some 0, some 1, "'y' not defined", some 0⟩ initStore) :=
  ⟨c1_function_call_semantics.1 1 "id" [tID "w" 0] (mkVarAccessNode (tID "w" 0))
      none none 0 [Value.num 7 {}] initStore rfl,
   c1_function_call_semantics.2.1 1 "id" [tID "w" 0] (mkVarAccessNode (tID "w" 0))
      none none 0 [] initStore (by decide),
   c1_function_call_semantics.2.2.1 1 "id" [tID "w" 0] (mkVarAccessNode (tID "w" 0))
      none none 0 [Value.num 7 {}, Value.num 8 {}] initStore (by decide),
   c1_function_call_semantics.2.2.2.1 1 (mkVarAccessNode (tID "y" 0)) [] 0 initStore []
      ⟨some 0, some 1, "'y' not defined", some 0⟩ initStore rfl⟩

/-- Claim C2: `* /` bind tighter than `+ -`, chains of `+ - * /` are
left-associative, `^` associates to the right through the factor re-entry
rule, and evaluation matches exact arithmetic: `2 + 3 * 4` is `14` and
`2 ^ 3 ^ 2` is `512`. -/
theorem c2_arithmetic_precedence :
    (∀ a b c : ℚ, make_ast (add3Toks a b c) 50 =
      (some (mkBinOpNode (mkNumberNode (tINT a 0)) (tOP .PLUS 1)
        (mkBinOpNode (mkNumberNode (tINT b 2)) (tOP .MUL 3) (mkNumberNode (tINT c 4)))), none)) ∧
    (∀ a b c : ℚ, visit 9 (mkBinOpNode (mkNumberNode (tINT a 0)) (tOP .PLUS 1)
        (mkBinOpNode (mkNumberNode (tINT b 2)) (tOP .MUL 3) (mkNumberNode (tINT c 4)))) 0 initStore =
      .ok (.num (a + b * c) ⟨some 0, some 5, some 0⟩) initStore) ∧
    (∀ a b c : ℚ, make_ast (pow3Toks a b c) 50 =
      (some (mkBinOpNode (mkNumberNode (tINT a 0)) (tOP .POW 1)
        (mkBinOpNode (mkNumberNode (tINT b 2)) (tOP .POW 3) (mkNumberNode (tINT c 4)))), none)) ∧
    (∀ a b c : ℚ, make_ast (sub3Toks a b c) 50 =
      (some (mkBinOpNode
        (mkBinOpNode (mkNumberNode (tINT a 0)) (tOP .MINUS 1) (mkNumberNode (tINT b 2)))
        (tOP .MINUS 3) (mkNumberNode (tINT c 4))), none)) ∧
    (∀ a b c : ℚ, visit 9 (mkBinOpNode
        (mkBinOpNode (mkNumberNode (tINT a 0)) (tOP .MINUS 1) (mkNumberNode (tINT b 2)))
        (tOP .MINUS 3) (mkNumberNode (tINT c 4))) 0 initStore =
      .ok (.num (a - b - c) ⟨some 0, some 5, some 0⟩) initStore) ∧
    numOf (runLines 50 [twoPlusThreeMulFourToks] initStore) = some 14 ∧
    numOf (runLines 50 [twoPowThreePowTwoToks] initStore) = some 512 := by
  refine ⟨fun a b c => rfl, fun a b c => rfl, fun a b c => rfl, fun a b c => rfl,
    fun a b c => rfl, ?_, ?_⟩
  · with_unfolding_all rfl
  · with_unfolding_all rfl

/-- Witness for C2: the precedence shape instantiated at `2 + 3 * 4`. -/
theorem c2_arithmetic_precedence_witness :
    make_ast (add3Toks 2 3 4) 50 =
      (some (mkBinOpNode (mkNumberNode (tINT 2 0)) (tOP .PLUS 1)
        (mkBinOpNode (mkNumberNode (tINT 3 2)) (tOP .MUL 3) (mkNumberNode (tINT 4 4)))), none) :=
  c2_arithmetic_precedence.1 2 3 4

/-- Claim C3: the conditional evaluates only the condition and the selected
branch — for a truthy condition the result is exactly the then-branch's
evaluation, for any else-branch whatsoever (and symmetrically), so an untaken
branch that would itself error cannot raise; `if 1 < 2 then 10 else y`
evaluates to `10` although `y` is undefined. -/
theorem c3_if_short_circuit :
    (∀ (f : Nat) (cond t e1 : Node) (ctx : Nat) (store : Store) (ps pe : Option Nat)
        (v : Value) (s' : Store),
      visit f cond ctx store = .ok v s' → pyBool (is_truthy v) = true →
        visit (f + 1) (.ifBlock cond t e1 ps pe) ctx store = visit f t ctx s') ∧
    (∀ (f : Nat) (cond t1 e : Node) (ctx : Nat) (store : Store) (ps pe : Option Nat)
        (v : Value) (s' : Store),
      visit f cond ctx store = .ok v s' → pyBool (is_truthy v) = false →
        visit (f + 1) (.ifBlock cond t1 e ps pe) ctx store = visit f e ctx s') ∧
    numOf (runLines 99 [ifLtToks] initStore) = some 10 := by
  refine ⟨?_, ?_, ?_⟩
  · intro f cond t e1 ctx store ps pe v s' h1 h2
    simp [visit, h1, h2]
  · intro f cond t1 e ctx store ps pe v s' h1 h2
    simp [visit, h1, h2]
  · with_unfolding_all rfl

/-- Witness for C3: for the condition `1` (truthy) the conditional reduces to
its then-branch, and for the condition `0` (falsy) to its else-branch, at
concrete nodes and store. -/
theorem c3_if_short_circuit_witness :
    visit 2 (.ifBlock (mkNumberNode (tINT 1 0)) (mkNumberNode (tINT 10 2))
        (mkVarAccessNode (tID "y" 4)) (some 0) none) 0 initStore =
      visit 1 (mkNumberNode (tINT 10 2)) 0 initStore ∧
    visit 2 (.ifBlock (mkNumberNode (tINT 0 0)) (mkVarAccessNode (tID "y" 4))
        (mkNumberNode (tINT 20 2)) (some 0) none) 0 initStore =
      visit 1 (mkNumberNode (tINT 20 2)) 0 initStore :=
  ⟨c3_if_short_circuit.1 1 (mkNumberNode (tINT 1 0)) (mkNumberNode (tINT 10 2))
      (mkVarAccessNode (tID "y" 4)) 0 initStore (some 0) none
      (.num 1 ⟨some 0, some 1, some 0⟩) initStore rfl (by decide),
   c3_if_short_circuit.2.1 1 (mkNumberNode (tINT 0 0)) (mkVarAccessNode (tID "y" 4))
      (mkNumberNode (tINT 20 2)) 0 initStore (some 0) none
      (.num 0 ⟨some 0, some 1, some 0⟩) initStore rfl (by decide)⟩

/-- Claim C4 (code bug): with `x` bound to the Number `0` — a defined name —
`visit_VarAccessNode`'s `if not value:` check reports `'x' not defined`,
because a legitimately falsy stored value is indistinguishable from an absent
one; the lookup itself does find the binding. -/
theorem c4_falsy_binding_reported_undefined :
    smGet xZeroStore 0 (.vStr "x") = some (Value.num 0 ⟨some 8, some 9, some 0⟩) ∧
    visit 9 (mkVarAccessNode (tID "x" 0)) 0 xZeroStore =
      .err ⟨some 0, some 1, "'x' not defined", some 0⟩ xZeroStore ∧
    errOf (runLines 50 [letX0Toks, xToks] initStore) = some "'x' not defined" := by
  refine ⟨rfl, ?_, ?_⟩
  · with_unfolding_all rfl
  · with_unfolding_all rfl

/-- Claim C5: division of a Number by a zero-valued Number is the distinct
`Division by Zero` runtime error (stamped with the divisor's span and the left
operand's context), and by a nonzero Number the exact quotient; `1 / 0`
through the whole pipeline reports `Division by Zero`. -/
theorem c5_division_by_zero :
    (∀ (a b : ℚ) (ia ib : VInfo),
      (b = 0 → operate_div (.num a ia) (.num b ib) =
        .pair none (some ⟨ib.ps, ib.pe, "Division by Zero", ia.ctx⟩)) ∧
      (b ≠ 0 → operate_div (.num a ia) (.num b ib) =
        .pair (some (.num (a / b) { ctx := ia.ctx })) none)) ∧
    errOf (runLines 50 [oneDivZeroToks] initStore) = some "Division by Zero" := by
  refine ⟨fun a b ia ib => ⟨fun h => ?_, fun h => ?_⟩, ?_⟩
  · simp [operate_div, h]
  · simp [operate_div, h]
  · with_unfolding_all rfl

/-- Witness for C5: `1 / 0` at the operator level is the Division-by-Zero
error and `1 / 2` is the Number `1/2`. -/
theorem c5_division_by_zero_witness :
    operate_div (.num 1 {}) (.num 0 {}) =
      .pair none (some ⟨none, none, "Division by Zero", none⟩) ∧
    operate_div (.num 1 {}) (.num 2 {}) =
      .pair (some (.num (1 / 2) {})) none :=
  ⟨(c5_division_by_zero.1 1 0 {} {}).1 rfl,
   (c5_division_by_zero.1 1 2 {} {}).2 (by norm_num)⟩

/-- Claim C6 is falsified at concrete inputs: `Number(1) and Bool(true)` is
the not-supported error rather than a success; `Bool.logic_not` returns a
bare `Bool`, not a `(result, error)` pair; `Bool(true) and Function` raises a
host `AttributeError` instead of the generic error; and running `not true`
through the interpreter crashes unpacking the bare `Bool`. -/
theorem c6_counterexample :
    logic_and (.num 1 {}) (.bool true {}) =
      .pair none (some ⟨none, none, "Number does not support 'and' logic with Bool", none⟩) ∧
    logic_not (.bool true {}) = .bare (.bool false {}) ∧
    logic_and (.bool true {}) (.func "f" [] anonBody {}) =
      .pyCrash "AttributeError: Function has no attribute value" ∧
    crashOf (runLines 50 [notTrueToks] initStore) =
      some "TypeError: cannot unpack non-iterable Bool object" := by
  refine ⟨rfl, rfl, rfl, ?_⟩
  with_unfolding_all rfl

/-- Claim C6 as amended: `and`/`or` succeed with a Bool result for
Number×Number and for Bool×(Number or Bool); a Number with a non-Number right
operand and a Function left operand give the generic not-supported error; a
Bool left operand with a Function right operand crashes with a host
`AttributeError` exactly when the host `and`/`or` must read the operand —
`Bool(True) and Function` and `Bool(False) or Function` crash, while the
short-circuited `Bool(False) and Function` and `Bool(True) or Function`
succeed with that Bool; unary `not` on a Number succeeds as a pair with the
Bool negation of its truthiness, while `Bool.logic_not` returns a bare Bool
(breaking the pair contract, so the interpreter's `not` on a Bool crashes). -/
theorem c6_amended_operator_contract :
    (∀ (a b : ℚ) (ia ib : VInfo),
      (∃ r, logic_and (.num a ia) (.num b ib) = .pair (some (.bool r { ctx := ia.ctx })) none) ∧
      (∃ r, logic_or (.num a ia) (.num b ib) = .pair (some (.bool r { ctx := ia.ctx })) none)) ∧
    (∀ (x : Bool) (b : ℚ) (ia ib : VInfo),
      (∃ r, logic_and (.bool x ia) (.num b ib) = .pair (some (.bool r { ctx := ia.ctx })) none) ∧
      (∃ r, logic_or (.bool x ia) (.num b ib) = .pair (some (.bool r { ctx := ia.ctx })) none)) ∧
    (∀ (x y : Bool) (ia ib : VInfo),
      logic_and (.bool x ia) (.bool y ib) = .pair (some (.bool (x && y) { ctx := ia.ctx })) none ∧
      logic_or (.bool x ia) (.bool y ib) = .pair (some (.bool (x || y) { ctx := ia.ctx })) none) ∧
    (∀ (a : ℚ) (ia : VInfo) (b : Bool) (ib : VInfo),
      logic_and (.num a ia) (.bool b ib) =
        .pair none (some (not_supported (.num a ia) "'and' logic" (.bool b ib)))) ∧
    (∀ (nm : String) (prs : List Token) (bd : Node) (i : VInfo) (other : Value),
      logic_and (.func nm prs bd i) other =
        .pair none (some (not_supported (.func nm prs bd i) "'and' logic" other))) ∧
    (∀ (ia : VInfo) (nm : String) (prs : List Token) (bd : Node) (j : VInfo),
      logic_and (.bool true ia) (.func nm prs bd j) =
        .pyCrash "AttributeError: Function has no attribute value" ∧
      logic_and (.bool false ia) (.func nm prs bd j) =
        .pair (some (.bool false { ctx := ia.ctx })) none ∧
      logic_or (.bool false ia) (.func nm prs bd j) =
        .pyCrash "AttributeError: Function has no attribute value" ∧
      logic_or (.bool true ia) (.func nm prs bd j) =
        .pair (some (.bool true { ctx := ia.ctx })) none) ∧
    (∀ (a : ℚ) (ia : VInfo),
      logic_not (.num a ia) = .pair (some (.bool (decide (a = 0)) { ctx := ia.ctx })) none) ∧
    (∀ (x : Bool) (ib : VInfo),
      logic_not (.bool x ib) = .bare (.bool (!x) { ctx := ib.ctx })) :=
  ⟨fun a b _ _ => ⟨⟨numAnd a b, rfl⟩, ⟨numOr a b, rfl⟩⟩,
   fun x b _ _ => by cases x <;> exact ⟨⟨_, rfl⟩, ⟨_, rfl⟩⟩,
   fun x _ _ _ => by cases x <;> exact ⟨rfl, rfl⟩,
   fun _ _ _ _ => rfl,
   fun _ _ _ _ _ => rfl,
   fun _ _ _ _ _ => ⟨rfl, rfl, rfl, rfl⟩,
   fun _ _ => rfl,
   fun _ _ => rfl⟩

/-- Witness for the amended C6: `Number(1) and Number(2)` succeeds with a
Bool result. -/
theorem c6_amended_operator_contract_witness :
    ∃ r, logic_and (.num 1 {}) (.num 2 {}) = .pair (some (.bool r { ctx := none })) none :=
  (c6_amended_operator_contract.1 1 2 {} {}).1

/-- Claim C7 is falsified at a concrete input: before evaluating the
anonymous definition `fun (): 1` the global scope has no `[lambda]` binding;
evaluating it returns the Function but also adds the binding `[lambda]` — the
scope's set of bindings is not unchanged. -/
theorem c7_counterexample :
    smGet initStore 0 (.vStr "[lambda]") = none ∧
    visit 9 anonDefNode 0 initStore =
      .ok anonFunc [{ map := [(.vStr "[lambda]", anonFunc)], parent := none }] ∧
    smGet [{ map := [(.vStr "[lambda]", anonFunc)], parent := none }] 0 (.vStr "[lambda]") =
      some anonFunc := ⟨rfl, rfl, rfl⟩

/-- Claim C7 as amended: every function definition — named or anonymous —
returns the constructed Function and registers it in the current scope under
the node's stored name, which is the placeholder `[lambda]` for anonymous
definitions; that binding is added or overwritten and all other bindings are
unchanged. -/
theorem c7_funcdef_registers_always :
    (∀ (f : Nat) (name : String) (params : List Token) (body : Node) (ps pe : Option Nat)
        (ctx : Nat) (store : Store) (fr : Frame),
      store[ctx]? = some fr →
        visit (f + 1) (.funcDef name params body ps pe) ctx store =
          .ok (.func name params body ⟨ps, pe, some ctx⟩)
            (store.set ctx { fr with
              map := mapSet fr.map (.vStr name) (.func name params body ⟨ps, pe, some ctx⟩) })) ∧
    (∀ (m : List (TVal × Value)) (k : TVal) (v : Value), mapGet (mapSet m k v) k = some v) ∧
    (∀ (m : List (TVal × Value)) (k : TVal) (v : Value) (k' : TVal),
      k' ≠ k → mapGet (mapSet m k v) k' = mapGet m k') ∧
    (∀ (params : List Token) (body : Node),
      mkFuncDefNode "" params body = .funcDef "[lambda]" params body none none) := by
  refine ⟨?_, mapGet_mapSet_self, mapGet_mapSet_other, fun params body => rfl⟩
  intro f name params body ps pe ctx store fr h
  simp [visit, smSet, h]

/-- Witness for C7: the anonymous example definition, evaluated in the fresh
global scope, returns its Function value and registers it under `[lambda]`. -/
theorem c7_funcdef_registers_always_witness :
    visit 3 (.funcDef "[lambda]" [] anonBody (some 0) (some 15)) 0 initStore =
      .ok anonFunc
        (initStore.set 0 { map := mapSet [] (.vStr "[lambda]") anonFunc, parent := none }) :=
  c7_funcdef_registers_always.1 2 "[lambda]" [] anonBody (some 0) (some 15) 0 initStore {} rfl

/-- Claim C8 (code bug): `ParseResult.failure` tests
`error is not None or self.advancements == 0`, so a later non-`None` error
always replaces the stored one even after tokens were consumed — the last
error wins, not the first; `register` likewise overwrites unconditionally.
The zero-advancement override the claim permits does also happen. -/
theorem c8_parse_error_overridden :
    PRes.failure { error := some pErr1, node := none, adv := 1 } (some pErr2) =
      { error := some pErr2, node := none, adv := 1 } ∧
    pErr1 ≠ pErr2 ∧
    (PRes.register { error := some pErr1, node := none, adv := 1 }
        { error := some pErr2, node := none, adv := 1 }).1.error = some pErr2 ∧
    PRes.failure { error := some pErr1, node := none, adv := 0 } (some pErr2) =
      { error := some pErr2, node := none, adv := 0 } := by
  refine ⟨rfl, ?_, rfl, rfl⟩
  decide

/-- Claim C9 (code bug): the parser yields for `if 1 then 2 else 3` an
if-node whose `pos_start` is set but whose `pos_end` is `None` —
`IfBlockNode.__init__` never assigns it — even though its last child ends at
position 18, so the if-node's span does not cover its sub-expressions. -/
theorem c9_ifnode_span_missing :
    make_ast if123Toks 50 =
      (some (mkIfBlockNode (mkNumberNode (tINT 1 3)) (mkNumberNode (tINT 2 10))
        (mkNumberNode (tINT 3 17))), none) ∧
    (mkIfBlockNode (mkNumberNode (tINT 1 3)) (mkNumberNode (tINT 2 10))
        (mkNumberNode (tINT 3 17))).posEnd = none ∧
    (mkNumberNode (tINT 3 17)).posEnd = some 18 ∧
    (mkIfBlockNode (mkNumberNode (tINT 1 3)) (mkNumberNode (tINT 2 10))
        (mkNumberNode (tINT 3 17))).posStart = some 3 :=
  ⟨rfl, rfl, rfl, rfl⟩

/-- Claim C10: the base `Object` truthiness is `Bool(True)`, so a Function
value used as an if-condition always selects the then-branch, never an
unsupported-truthiness error; `if fun(z): z then 1 else nope` evaluates to
`1` although `nope` is undefined. -/
theorem c10_function_condition_truthy :
    (∀ (nm : String) (prms : List Token) (bd : Node) (i : VInfo),
      is_truthy (.func nm prms bd i) = .bool true {}) ∧
    (∀ (f : Nat) (cond t e : Node) (ctx : Nat) (store : Store) (ps pe : Option Nat)
        (nm : String) (prms : List Token) (bd : Node) (i : VInfo) (s' : Store),
      visit f cond ctx store = .ok (.func nm prms bd i) s' →
        visit (f + 1) (.ifBlock cond t e ps pe) ctx store = visit f t ctx s') ∧
    numOf (runLines 300 [ifFunToks] initStore) = some 1 := by
  refine ⟨fun nm prms bd i => rfl, ?_, ?_⟩
  · intro f cond t e ctx store ps pe nm prms bd i s' h
    simp [visit, h, is_truthy, pyBool]
  · with_unfolding_all rfl

/-- Witness for C10: the anonymous example function as the condition of a
concrete if-node selects the then-branch. -/
theorem c10_function_condition_truthy_witness :
    visit 2 (.ifBlock anonDefNode (mkNumberNode (tINT 1 19)) (mkVarAccessNode (tID "nope" 26))
        (some 0) none) 0 initStore =
      visit 1 (mkNumberNode (tINT 1 19)) 0
        [{ map := [(.vStr "[lambda]", anonFunc)], parent := none }] :=
  c10_function_condition_truthy.2.1 1 anonDefNode (mkNumberNode (tINT 1 19))
    (mkVarAccessNode (tID "nope" 26)) 0 initStore (some 0) none
    "[lambda]" [] anonBody ⟨some 0, some 15, some 0⟩
    [{ map := [(.vStr "[lambda]", anonFunc)], parent := none }] rfl

end Cyan
